import Mathlib

/-!
Verification development for the ai-chat-app repository: a shallow Lean
embedding of the retrieval service (`rag_service.py`), the prompt assembler
and the completion client (`azure_ai_client.py`), together with theorems
settling the behavioural claims about them.

External effects (the search backend, the embedding endpoint and the chat
completion endpoint) are modelled as explicit environments whose calls
return `Except`-style outcomes; Python exceptions are modelled with an
explicit `PyResult` type, and `try/except` blocks become explicit recovery
branches, so that "never raises" statements are genuine theorems.
-/

namespace AIChat

/-- A Python runtime value stored in a search-result mapping: either a string
field or a numeric field (such as the backend relevance score).  Numeric
payloads are opaque to all control flow modelled here, so they are carried as
`Int`. -/
inductive SVal where
  | str (s : String)
  | num (n : Int)
deriving DecidableEq, Repr

/-- Python truthiness of a field value (`if search_result[field]:`). -/
def SVal.truthy : SVal → Bool
  | .str s => s != ""
  | .num n => n != 0

/-- Python `str(...)` conversion of a field value. -/
def SVal.pyStr : SVal → String
  | .str s => s
  | .num n => Int.repr n

/-- Python `isinstance(value, str)`. -/
def SVal.isStr : SVal → Bool
  | .str _ => true
  | .num _ => false

/-- A raw search hit: a Python dict modelled as an insertion-ordered
association list. -/
abbrev SearchResult := List (String × SVal)

/-- Python `search_result[field]` combined with `field in search_result`:
`some v` when the key is present with value `v`, else `none`. -/
def lookupField (r : SearchResult) (k : String) : Option SVal :=
  (r.find? (fun kv => kv.1 == k)).map (fun kv => kv.2)

/-- Python `sep.join(parts)`. -/
def pyJoin (sep : String) : List String → String
  | [] => ""
  | [a] => a
  | a :: b :: rest => a ++ sep ++ pyJoin sep (b :: rest)

/-- Python `s.lower()` (character-wise, as the code only relies on ASCII). -/
def pyLower (s : String) : String := String.mk (s.data.map Char.toLower)

/-- Python `s.strip()`: remove leading and trailing whitespace. -/
def pyStrip (s : String) : String :=
  String.mk (((s.data.dropWhile Char.isWhitespace).reverse.dropWhile Char.isWhitespace).reverse)

/-- Python `s.startswith(pre)`. -/
def pyStartsWith (s pre : String) : Bool := pre.data.isPrefixOf s.data

/-- Helper for substring search: does `needle` occur in the character list? -/
def containsSub (needle : List Char) : List Char → Bool
  | [] => needle.isEmpty
  | c :: rest => needle.isPrefixOf (c :: rest) || containsSub needle rest

/-- Python `needle in hay` on strings. -/
def strContains (hay needle : String) : Bool := containsSub needle.data hay.data

/-- The fixed priority list of content field names probed first by
`RAGService._extract_content`. -/
def content_fields : List String := ["content", "text", "body", "description", "summary"]

/-- The probing loop of `_extract_content`: return `str(search_result[field])`
for the first listed field that is present and truthy. -/
def probeContentFields (r : SearchResult) : List String → Option String
  | [] => none
  | f :: fs =>
    match lookupField r f with
    | some v => if v.truthy then some v.pyStr else probeContentFields r fs
    | none => probeContentFields r fs

/-- The final fallback of `_extract_content`: all string-valued fields whose
key does not start with `"@"`, rendered as `"key: value"` and joined with
`" | "`; the sentinel when that collection is empty. -/
def fallbackJoin (r : SearchResult) : String :=
  let text_content :=
    (r.filter (fun kv => kv.2.isStr && !(pyStartsWith kv.1 "@"))).map
      (fun kv => kv.1 ++ ": " ++ kv.2.pyStr)
  if text_content.isEmpty then "No content available" else pyJoin " | " text_content

/-- `RAGService._extract_content`: probe the common content fields, then the
`chunk` field (with a `Title:` prefix when a truthy `title` field exists),
then the concatenation fallback, then the sentinel. -/
def extract_content (r : SearchResult) : String :=
  match probeContentFields r content_fields with
  | some s => s
  | none =>
    match lookupField r "chunk" with
    | some c =>
      if c.truthy then
        let content_parts :=
          (match lookupField r "title" with
           | some t => if t.truthy then ["Title: " ++ t.pyStr] else []
           | none => []) ++ [c.pyStr]
        pyJoin " | " content_parts
      else fallbackJoin r
    | none => fallbackJoin r

/-- The fixed metadata field names probed by `RAGService._extract_metadata`. -/
def metadata_fields : List String :=
  ["title", "source", "url", "filename", "category", "tags", "date"]

/-- `RAGService._extract_metadata`: keep each listed field that is present and
truthy, then add the backend relevance score under `search_score` whenever the
`@search.score` key is present (no truthiness check there). -/
def extract_metadata (r : SearchResult) : List (String × SVal) :=
  (metadata_fields.filterMap fun f =>
    match lookupField r f with
    | some v => if v.truthy then some (f, v) else none
    | none => none)
  ++ (match lookupField r "@search.score" with
      | some v => [("search_score", v)]
      | none => [])

/-- A processed retrieved document as built by `search_documents`. -/
structure Doc where
  content : String
  score : Int
  metadata : List (String × SVal)
deriving DecidableEq, Repr

/-- One processed hit.  The source reads the score with
`getattr(result, "@search.score", 0)`; attribute access on a dict-shaped hit
never finds such an attribute, so the default `0` is always taken. -/
def mkDoc (r : SearchResult) : Doc :=
  { content := extract_content r, score := 0, metadata := extract_metadata r }

/-- Python string slice `s[:n]` (by code point). -/
def pySlice (s : String) (n : Nat) : String := String.mk (s.data.take n)

/-- 1-based enumeration, Python `enumerate(documents, 1)`. -/
def enumFrom {α : Type _} (i : Nat) : List α → List (Nat × α)
  | [] => []
  | a :: as => (i, a) :: enumFrom (i + 1) as

/-- The label chosen for document `i` by `create_context_prompt`:
`doc.get("metadata", {}).get("source", f"Document {i}")`. -/
def docSourceLabel (d : Doc) (i : Nat) : String :=
  match lookupField d.metadata "source" with
  | some v => v.pyStr
  | none => "Document " ++ Nat.repr i

/-- One labelled context block of `create_context_prompt`:
`f"[Source {i}: {source}]\n{content}\n"` with the content sliced to its
first 2000 code points. -/
def contextBlock (i : Nat) (d : Doc) : String :=
  "[Source " ++ Nat.repr i ++ ": " ++ docSourceLabel d i ++ "]\n"
    ++ pySlice d.content 2000 ++ "\n"

/-- The fixed text of the enhanced prompt preceding the joined context. -/
def ragPromptHeader : String :=
  "You are a helpful AI assistant. Use the following context information to answer the user\x27s question. If the context doesn\x27t contain relevant information, say so and provide a general response.\n\nCONTEXT:\n"

/-- The fixed text of the enhanced prompt following the joined context. -/
def ragPromptTail (user_query : String) : String :=
  "\n\nUSER QUESTION: " ++ user_query
    ++ "\n\nInstructions:\n- Base your answer primarily on the provided context\n- If you reference specific information, mention the source\n- If the context is insufficient, acknowledge this and provide what help you can\n- Be conversational and helpful"

/-- `RAGService.create_context_prompt`. -/
def create_context_prompt (documents : List Doc) (user_query : String) : String :=
  if documents.isEmpty then "User query: " ++ user_query
  else
    ragPromptHeader
      ++ pyJoin "\n" ((enumFrom 1 documents).map fun p => contextBlock p.1 p.2)
      ++ ragPromptTail user_query

/-! ### Search request shapes and the tiered search pipeline -/

/-- One vector query as assembled for the hybrid search request. -/
structure VectorQuery where
  kind : String
  vector : List Int
  k_nearest_neighbors : Int
  fields : String
deriving DecidableEq, Repr

/-- The keyword arguments handed to `search_client.search(**search_params)`. -/
structure SearchParams where
  search_text : String
  vector_queries : List VectorQuery
  top : Int
  include_total_count : Bool
  query_type : Option String
  semantic_configuration_name : Option String
deriving DecidableEq, Repr

/-- The full hybrid request (full-text + vector + semantic rerank). -/
def hybridParams (q : String) (k : Int) (emb : List Int) : SearchParams :=
  { search_text := q
    vector_queries :=
      [{ kind := "vector", vector := emb, k_nearest_neighbors := k, fields := "contentVector" }]
    top := k
    include_total_count := true
    query_type := some "semantic"
    semantic_configuration_name := some "default" }

/-- The semantic-only request (no vector component). -/
def semanticParams (q : String) (k : Int) : SearchParams :=
  { search_text := q
    vector_queries := []
    top := k
    include_total_count := true
    query_type := some "semantic"
    semantic_configuration_name := some "default" }

/-- The plain full-text request. -/
def simpleParams (q : String) (k : Int) : SearchParams :=
  { search_text := q
    vector_queries := []
    top := k
    include_total_count := true
    query_type := none
    semantic_configuration_name := none }

/-- Outcome of a Python call: a returned value or a raised exception carrying
`str(e)`. -/
inductive PyResult (α : Type) where
  | ok (a : α)
  | raise (err : String)
deriving DecidableEq, Repr

/-- Recover from a raised exception with a default value. -/
def PyResult.unwrapOr {α : Type _} : PyResult α → α → α
  | .ok a, _ => a
  | .raise _, d => d

/-- The external world seen by `RAGService`: whether a search client was
constructed, the outcome of the embedding endpoint call, and the outcome of
each possible search request. -/
structure SearchEnv where
  clientAvailable : Bool
  embed : Except String (List Int)
  search : SearchParams → Except String (List SearchResult)

/-- `RAGService._get_query_embedding`: the endpoint call wrapped in
`try/except`, returning `[]` on failure to disable vector search. -/
def get_query_embedding (env : SearchEnv) : List Int :=
  match env.embed with
  | .ok v => v
  | .error _ => []

/-- The configuration fields of `config.py` that the modelled code reads. -/
structure Config where
  AZURE_OPENAI_DEPLOYMENT : String
  ENABLE_RAG : Bool
  RAG_TOP_K : Int
  RAG_SEARCH_TYPE : String
  CONVERSATION_HISTORY_LIMIT : Int
deriving DecidableEq, Repr

/-- The default values of `config.py` when no environment override is set. -/
def defaultConfig : Config :=
  { AZURE_OPENAI_DEPLOYMENT := "gpt-4o-mini"
    ENABLE_RAG := true
    RAG_TOP_K := 5
    RAG_SEARCH_TYPE := "hybrid"
    CONVERSATION_HISTORY_LIMIT := 50 }

/-- Python `top_k or self.config.RAG_TOP_K`: `or` takes the right operand when
the left one is `None` or `0` (both falsy). -/
def pyOrInt : Option Int → Int → Int
  | none, d => d
  | some n, d => if n = 0 then d else n

/-- The tier-selection body of `search_documents` (the part inside the outer
`try`): chooses requests by `RAG_SEARCH_TYPE` and applies the nested
`try/except` fallbacks.  Returns the raw results (or the uncaught exception of
the final tier) together with the trace of requests actually issued. -/
def searchBody (env : SearchEnv) (cfg : Config) (query : String) (k : Int) :
    PyResult (List SearchResult) × List SearchParams :=
  if cfg.RAG_SEARCH_TYPE = "hybrid" then
    let emb := get_query_embedding env
    let p1 := if emb.isEmpty then semanticParams query k else hybridParams query k emb
    match env.search p1 with
    | .ok rs => (.ok rs, [p1])
    | .error _ =>
      let p2 := semanticParams query k
      match env.search p2 with
      | .ok rs => (.ok rs, [p1, p2])
      | .error _ =>
        let p3 := simpleParams query k
        match env.search p3 with
        | .ok rs => (.ok rs, [p1, p2, p3])
        | .error e => (.raise e, [p1, p2, p3])
  else if cfg.RAG_SEARCH_TYPE = "semantic" then
    let p1 := semanticParams query k
    match env.search p1 with
    | .ok rs => (.ok rs, [p1])
    | .error _ =>
      let p2 := simpleParams query k
      match env.search p2 with
      | .ok rs => (.ok rs, [p1, p2])
      | .error e => (.raise e, [p1, p2])
  else
    let p1 := simpleParams query k
    match env.search p1 with
    | .ok rs => (.ok rs, [p1])
    | .error e => (.raise e, [p1])

/-- `RAGService.search_documents`, instrumented with the trace of issued
requests: the missing-client guard, the `top_k or RAG_TOP_K` default, the
tiered body, result shaping, and the outer `except` that converts any escaped
exception into an empty list. -/
def search_documents_traced (env : SearchEnv) (cfg : Config) (query : String)
    (top_k : Option Int) : PyResult (List Doc) × List SearchParams :=
  if !env.clientAvailable then (.ok [], [])
  else
    let k := pyOrInt top_k cfg.RAG_TOP_K
    match searchBody env cfg query k with
    | (.ok rs, tr) => (.ok (rs.map mkDoc), tr)
    | (.raise _, tr) => (.ok [], tr)

/-- `RAGService.search_documents` as its callers see it. -/
def search_documents (env : SearchEnv) (cfg : Config) (query : String)
    (top_k : Option Int) : List Doc :=
  ((search_documents_traced env cfg query top_k).1).unwrapOr []

/-- `RAGService.is_available`. -/
def is_available (env : SearchEnv) (cfg : Config) : Bool :=
  env.clientAvailable && cfg.ENABLE_RAG

/-! ### The completion client -/

/-- One chat message dict. -/
structure Message where
  role : String
  content : String
deriving DecidableEq, Repr

/-- The fixed system message prepended by `_prepare_messages`. -/
def systemMessage : Message :=
  { role := "system"
    content := "You are a helpful AI assistant. Provide clear, accurate, and helpful responses." }

/-- Python suffix slice `l[-n:]` for an arbitrary `int` bound `n`: a positive
`n` keeps the last `n` elements, `n = 0` keeps the whole list (since `-0` is
`0`), and a negative `n` drops the first `|n|` elements. -/
def pySliceLast {α : Type _} (n : Int) (l : List α) : List α :=
  if 0 < n then l.drop (l.length - n.toNat)
  else if n = 0 then l
  else l.drop n.natAbs

/-- `AzureAIClient._prepare_messages`. -/
def prepare_messages (cfg : Config) (message : String)
    (conversation_history : List Message) : List Message :=
  [systemMessage]
    ++ pySliceLast cfg.CONVERSATION_HISTORY_LIMIT conversation_history
    ++ [{ role := "user", content := message }]

/-- `AzureAIClient._enhance_with_rag`: search, then wrap with context when any
document came back; the surrounding `try/except` (returning the original
message) has no reachable failure in this model because `search_documents`
and `create_context_prompt` are total. -/
def enhance_with_rag (env : SearchEnv) (cfg : Config) (message : String) : String :=
  let documents := search_documents env cfg message none
  if documents.isEmpty then message else create_context_prompt documents message

/-- The fields of a successful chat-completion response that the client
reads: the first choice text (possibly `None`), the model name, and the
optional usage record with its three token counters. -/
structure ApiResponse where
  content : Option String
  model : String
  usage : Option (Nat × Nat × Nat)
deriving DecidableEq, Repr

/-- A value of the dict returned by `send_message`. -/
inductive DVal where
  | str (s : String)
  | bool (b : Bool)
  | usage (prompt_tokens completion_tokens total_tokens : Nat)
deriving DecidableEq, Repr

/-- The result dict of `send_message`, keys in insertion order. -/
abbrev Dict := List (String × DVal)

/-- Python `d[k]` on a result dict. -/
def dictGet (d : Dict) (k : String) : Option DVal :=
  (d.find? (fun kv => kv.1 == k)).map (fun kv => kv.2)

/-- The external world seen by `AzureAIClient.send_message`: the retrieval
environment plus the outcome of the chat-completion call on the prepared
message list. -/
structure SendEnv where
  searchEnv : SearchEnv
  apiCall : List Message → Except String ApiResponse

/-- The error-classification chain of `send_message`'s `except` block. -/
def classify_error (cfg : Config) (error_msg : String) : String :=
  if strContains error_msg "401" || strContains (pyLower error_msg) "unauthorized" then
    "Authentication failed. Please check your API key."
  else if strContains error_msg "404" || strContains (pyLower error_msg) "not found" then
    "Model deployment \x27" ++ cfg.AZURE_OPENAI_DEPLOYMENT
      ++ "\x27 not found. Please verify your deployment name."
  else if strContains error_msg "429" || strContains (pyLower error_msg) "rate limit" then
    "Rate limit exceeded. Please wait and try again."
  else if strContains (pyLower error_msg) "timeout" then
    "Request timed out. Please try again."
  else error_msg

/-- The apology used when the model returns an empty or missing text. -/
def emptyResponseApology : String := "I apologize, but I couldn\x27t generate a response."

/-- `content.strip() if content else <apology>` on the optional choice text. -/
def successContent : Option String → String
  | none => emptyResponseApology
  | some c => if c = "" then emptyResponseApology else pyStrip c

/-- The dict built on the success path of `send_message`. -/
def successDict (resp : ApiResponse) : Dict :=
  [("content", .str (successContent resp.content)),
   ("model", .str resp.model),
   ("usage",
    match resp.usage with
    | some (p, c, t) => .usage p c t
    | none => .usage 0 0 0),
   ("success", .bool true)]

/-- The user-facing apology built on the failure path. -/
def errorApology (e : String) : String :=
  "I apologize, but I encountered an error: " ++ e

/-- The dict built in `send_message`'s `except` block. -/
def failureDict (cfg : Config) (raw : String) : Dict :=
  let error_msg := classify_error cfg raw
  [("content", .str (errorApology error_msg)),
   ("success", .bool false),
   ("error", .str error_msg)]

/-- The message text actually submitted: RAG-enhanced when the retrieval
service is available, the original otherwise. -/
def enhancedMessage (env : SendEnv) (cfg : Config) (message : String) : String :=
  if is_available env.searchEnv cfg then enhance_with_rag env.searchEnv cfg message
  else message

/-- `AzureAIClient.send_message`: the empty-message guard (which raises
`ValueError` outside the `try` block), RAG enhancement, message preparation,
the completion call, and the `except` block converting any failure into the
failure dict. -/
def send_message (env : SendEnv) (cfg : Config) (message : String)
    (conversation_history : List Message) : PyResult Dict :=
  if pyStrip message = "" then .raise "Message cannot be empty"
  else
    let messages := prepare_messages cfg (enhancedMessage env cfg message) conversation_history
    match env.apiCall messages with
    | .ok resp => .ok (successDict resp)
    | .error e => .ok (failureDict cfg e)

/-! ### Helper lemmas -/

theorem ne_empty_of_length_pos {s : String} (h : 0 < s.length) : s ≠ "" := by
  intro hs
  rw [hs] at h
  simp [String.length] at h

theorem length_mk_data (l : List Char) : (String.mk l).length = l.length := rfl

theorem toDigitsCore_length_le (b : Nat) :
    ∀ (fuel n : Nat) (ds : List Char), ds.length ≤ (Nat.toDigitsCore b fuel n ds).length := by
  intro fuel
  induction fuel with
  | zero => intro n ds; simp [Nat.toDigitsCore]
  | succ f ih =>
    intro n ds
    simp only [Nat.toDigitsCore]
    split
    · simp
    · exact le_trans (by simp) (ih _ _)

theorem toDigits_length_pos (b n : Nat) : 0 < (Nat.toDigits b n).length := by
  simp only [Nat.toDigits, Nat.toDigitsCore]
  split
  · simp
  · exact lt_of_lt_of_le (by simp) (toDigitsCore_length_le b n _ _)

theorem nat_repr_length_pos (n : Nat) : 0 < (Nat.repr n).length := by
  show 0 < ((Nat.toDigits 10 n).asString).length
  rw [List.asString, length_mk_data]
  exact toDigits_length_pos 10 n

theorem nat_repr_ne_empty (n : Nat) : Nat.repr n ≠ "" :=
  ne_empty_of_length_pos (nat_repr_length_pos n)

theorem int_repr_ne_empty (n : Int) : Int.repr n ≠ "" := by
  cases n with
  | ofNat m => simpa [Int.repr] using nat_repr_ne_empty m
  | negSucc m =>
    apply ne_empty_of_length_pos
    simp only [Int.repr, String.length_append]
    have := nat_repr_length_pos (Nat.succ m)
    omega

theorem truthy_pyStr_ne_empty {v : SVal} (h : v.truthy = true) : v.pyStr ≠ "" := by
  cases v with
  | str s =>
    simp only [SVal.truthy, bne_iff_ne, ne_eq, decide_eq_true_eq] at h
    simpa [SVal.pyStr] using h
  | num n => exact int_repr_ne_empty n

theorem probe_ne_empty (r : SearchResult) :
    ∀ (fs : List String) (s : String), probeContentFields r fs = some s → s ≠ "" := by
  intro fs
  induction fs with
  | nil => intro s h; simp [probeContentFields] at h
  | cons f fs ih =>
    intro s h
    simp only [probeContentFields] at h
    cases hl : lookupField r f with
    | none => rw [hl] at h; exact ih s h
    | some v =>
      rw [hl] at h
      cases ht : v.truthy with
      | false =>
        simp only [ht, Bool.false_eq_true, if_false] at h
        exact ih s h
      | true =>
        simp only [ht, if_true, Option.some.injEq] at h
        rw [← h]
        exact truthy_pyStr_ne_empty ht

theorem pyJoin_cons_length (sep a : String) (as : List String) :
    a.length ≤ (pyJoin sep (a :: as)).length := by
  cases as with
  | nil => simp [pyJoin]
  | cons b bs => simp [pyJoin, String.length_append]; omega

theorem fallbackJoin_ne_empty (r : SearchResult) : fallbackJoin r ≠ "" := by
  unfold fallbackJoin
  cases hf : r.filter (fun kv => kv.2.isStr && !(pyStartsWith kv.1 "@")) with
  | nil => simp
  | cons kv rest =>
    simp only [List.map_cons, List.isEmpty_cons, Bool.false_eq_true, if_false]
    apply ne_empty_of_length_pos
    apply lt_of_lt_of_le _ (pyJoin_cons_length _ _ _)
    simp only [String.length_append]
    have : (0:Nat) < (": " : String).length := by decide
    omega

theorem extract_content_ne_empty (r : SearchResult) : extract_content r ≠ "" := by
  unfold extract_content
  cases hp : probeContentFields r content_fields with
  | some s => exact probe_ne_empty r content_fields s hp
  | none =>
    cases hc : lookupField r "chunk" with
    | none => exact fallbackJoin_ne_empty r
    | some c =>
      cases ht : c.truthy with
      | false => simp only [ht, Bool.false_eq_true, if_false]; exact fallbackJoin_ne_empty r
      | true =>
        simp only [ht, if_true]
        cases hti : lookupField r "title" with
        | none => simpa [pyJoin] using truthy_pyStr_ne_empty ht
        | some t =>
          cases htt : t.truthy with
          | false => simpa [htt, pyJoin] using truthy_pyStr_ne_empty ht
          | true =>
            simp only [htt, if_true, List.cons_append, List.nil_append]
            apply ne_empty_of_length_pos
            apply lt_of_lt_of_le _ (pyJoin_cons_length _ _ _)
            simp only [String.length_append]
            have : (0:Nat) < ("Title: " : String).length := by decide
            omega

theorem enumFrom_length {α : Type _} (i : Nat) (l : List α) :
    (enumFrom i l).length = l.length := by
  induction l generalizing i with
  | nil => rfl
  | cons a as ih => simp [enumFrom, ih]

theorem enumFrom_get? {α : Type _} (i : Nat) (l : List α) (j : Nat) :
    (enumFrom i l).get? j = (l.get? j).map (fun a => (i + j, a)) := by
  induction l generalizing i j with
  | nil => simp [enumFrom]
  | cons a as ih =>
    cases j with
    | zero => simp [enumFrom]
    | succ j =>
      simp only [enumFrom, List.get?_cons_succ, ih (i + 1) j]
      cases as.get? j with
      | none => rfl
      | some b => simp; omega

theorem classify_error_ne_empty (cfg : Config) (raw : String) (h : raw ≠ "") :
    classify_error cfg raw ≠ "" := by
  unfold classify_error
  split
  · decide
  · split
    · apply ne_empty_of_length_pos
      simp only [String.length_append]
      have : (0:Nat) < ("Model deployment \x27" : String).length := by decide
      omega
    · split
      · decide
      · split
        · decide
        · exact h

/-! ### Claims about the prompt assembler -/

/-- C1 (counterexample): on an empty document list `create_context_prompt`
does not return the bare query: for the query "hi" it returns
"User query: hi". -/
theorem C1_counterexample : create_context_prompt [] "hi" ≠ "hi" := by decide

/-- C1 (amended): for every user query `q`, calling `create_context_prompt`
with an empty document list returns the query wrapped in the fixed prefix
"User query: " (not the bare query). -/
theorem C1_amended (q : String) : create_context_prompt [] q = "User query: " ++ q := rfl

/-- C7: for every non-empty document list, the output of
`create_context_prompt` is the fixed header, the newline-join of exactly one
labelled block per input document (in input order, 1-indexed), and the fixed
tail around the query; block `j` carries the `[Source j+1: ...]` label using
the metadata `source` field when present and "Document j+1" otherwise, and
its content part is the document content truncated to at most 2000
characters. -/
theorem C7_blocks (documents : List Doc) (user_query : String) (h : documents ≠ []) :
    ∃ blocks : List String,
      blocks.length = documents.length ∧
      create_context_prompt documents user_query =
        ragPromptHeader ++ pyJoin "\n" blocks ++ ragPromptTail user_query ∧
      ∀ (j : Nat) (d : Doc), documents.get? j = some d →
        blocks.get? j =
          some ("[Source " ++ Nat.repr (j + 1) ++ ": " ++ docSourceLabel d (j + 1) ++ "]\n"
            ++ pySlice d.content 2000 ++ "\n") ∧
        (pySlice d.content 2000).length ≤ 2000 := by
  refine ⟨(enumFrom 1 documents).map fun p => contextBlock p.1 p.2, ?_, ?_, ?_⟩
  · rw [List.length_map, enumFrom_length]
  · unfold create_context_prompt
    rw [if_neg (by simpa using h)]
  · intro j d hj
    constructor
    · rw [List.get?_map, enumFrom_get? 1 documents j, hj, Nat.add_comm 1 j]
      rfl
    · show ((d.content.data.take 2000).length ≤ 2000)
      rw [List.length_take]
      exact min_le_left _ _

/-- C7 (witness): the theorem instantiated at a concrete one-document list. -/
theorem C7_blocks_witness :
    ∃ blocks : List String,
      blocks.length = ([⟨"abc", 0, []⟩] : List Doc).length ∧
      create_context_prompt [⟨"abc", 0, []⟩] "q" =
        ragPromptHeader ++ pyJoin "\n" blocks ++ ragPromptTail "q" ∧
      ∀ (j : Nat) (d : Doc), ([⟨"abc", 0, []⟩] : List Doc).get? j = some d →
        blocks.get? j =
          some ("[Source " ++ Nat.repr (j + 1) ++ ": " ++ docSourceLabel d (j + 1) ++ "]\n"
            ++ pySlice d.content 2000 ++ "\n") ∧
        (pySlice d.content 2000).length ≤ 2000 :=
  C7_blocks [⟨"abc", 0, []⟩] "q" (by decide)

/-! ### Claims about message preparation -/

/-- C3 (counterexample): with `CONVERSATION_HISTORY_LIMIT = 0` the Python
slice `history[-0:]` keeps the whole history, so the segment between the
system and user messages is NOT bounded by the configured limit: with one
history entry the output keeps it even though the limit says zero entries. -/
theorem C3_counterexample :
    prepare_messages { defaultConfig with CONVERSATION_HISTORY_LIMIT := 0 } "hi"
        [{ role := "user", content := "old" }] =
      [systemMessage, { role := "user", content := "old" },
       { role := "user", content := "hi" }] ∧
    ¬ ∃ recent : List Message,
        recent.length ≤ 0 ∧
        prepare_messages { defaultConfig with CONVERSATION_HISTORY_LIMIT := 0 } "hi"
            [{ role := "user", content := "old" }] =
          [systemMessage] ++ recent ++ [{ role := "user", content := "hi" }] := by
  refine ⟨by decide, ?_⟩
  rintro ⟨recent, hlen, heq⟩
  rw [List.length_eq_zero.mp (Nat.le_zero.mp hlen)] at heq
  exact absurd heq (by decide)

/-- C3 (amended): for every positive configured history limit, every message
and every history, `prepare_messages` returns exactly one system message,
then a suffix of the history (in original order) of length at most the
limit, then exactly one user message holding the given text. -/
theorem C3_shape (cfg : Config) (message : String) (history : List Message)
    (h : 0 < cfg.CONVERSATION_HISTORY_LIMIT) :
    ∃ recent : List Message,
      prepare_messages cfg message history =
        [systemMessage] ++ recent ++ [{ role := "user", content := message }] ∧
      recent <:+ history ∧
      recent.length ≤ cfg.CONVERSATION_HISTORY_LIMIT.toNat ∧
      (prepare_messages cfg message history).head? = some systemMessage ∧
      (prepare_messages cfg message history).getLast? =
        some { role := "user", content := message } := by
  refine ⟨pySliceLast cfg.CONVERSATION_HISTORY_LIMIT history, rfl, ?_, ?_, ?_, ?_⟩
  · unfold pySliceLast
    rw [if_pos h]
    exact List.drop_suffix _ _
  · unfold pySliceLast
    rw [if_pos h, List.length_drop]
    omega
  · rfl
  · show (([systemMessage] ++ pySliceLast cfg.CONVERSATION_HISTORY_LIMIT history)
      ++ [({ role := "user", content := message } : Message)]).getLast? =
      some { role := "user", content := message }
    rw [List.getLast?_concat]

/-- C3 (witness): the amended theorem instantiated at the default
configuration (limit 50), a two-entry history and the message "m". -/
theorem C3_shape_witness :
    ∃ recent : List Message,
      prepare_messages defaultConfig "m"
          [{ role := "user", content := "a" }, { role := "assistant", content := "b" }] =
        [systemMessage] ++ recent ++ [{ role := "user", content := "m" }] ∧
      recent <:+ [{ role := "user", content := "a" }, { role := "assistant", content := "b" }] ∧
      recent.length ≤ defaultConfig.CONVERSATION_HISTORY_LIMIT.toNat ∧
      (prepare_messages defaultConfig "m"
          [{ role := "user", content := "a" }, { role := "assistant", content := "b" }]).head? =
        some systemMessage ∧
      (prepare_messages defaultConfig "m"
          [{ role := "user", content := "a" }, { role := "assistant", content := "b" }]).getLast? =
        some { role := "user", content := "m" } :=
  C3_shape defaultConfig "m"
    [{ role := "user", content := "a" }, { role := "assistant", content := "b" }] (by decide)

/-! ### Claims about the completion client -/

/-- C4 (counterexample): the raw error "404" contains none of "401", "429" or
"timeout", so the claim predicts it is passed through unchanged; the code
classifies it as a deployment-not-found error instead. -/
theorem C4_counterexample :
    strContains "404" "401" = false ∧
    strContains "404" "429" = false ∧
    strContains "404" "timeout" = false ∧
    strContains (pyLower "404") "timeout" = false ∧
    classify_error defaultConfig "404" ≠ "404" := by decide

/-- C4 (amended): the classification is the full ordered chain of the code:
401/unauthorized first, then 404/"not found", then 429/"rate limit", then
"timeout" (the textual probes case-insensitively), and only a raw error
matching none of these is passed through unchanged. -/
theorem C4_classification (cfg : Config) (m : String) :
    ((strContains m "401" || strContains (pyLower m) "unauthorized") = true →
      classify_error cfg m = "Authentication failed. Please check your API key.") ∧
    ((strContains m "401" || strContains (pyLower m) "unauthorized") = false →
      (strContains m "404" || strContains (pyLower m) "not found") = true →
      classify_error cfg m =
        "Model deployment \x27" ++ cfg.AZURE_OPENAI_DEPLOYMENT
          ++ "\x27 not found. Please verify your deployment name.") ∧
    ((strContains m "401" || strContains (pyLower m) "unauthorized") = false →
      (strContains m "404" || strContains (pyLower m) "not found") = false →
      (strContains m "429" || strContains (pyLower m) "rate limit") = true →
      classify_error cfg m = "Rate limit exceeded. Please wait and try again.") ∧
    ((strContains m "401" || strContains (pyLower m) "unauthorized") = false →
      (strContains m "404" || strContains (pyLower m) "not found") = false →
      (strContains m "429" || strContains (pyLower m) "rate limit") = false →
      strContains (pyLower m) "timeout" = true →
      classify_error cfg m = "Request timed out. Please try again.") ∧
    ((strContains m "401" || strContains (pyLower m) "unauthorized") = false →
      (strContains m "404" || strContains (pyLower m) "not found") = false →
      (strContains m "429" || strContains (pyLower m) "rate limit") = false →
      strContains (pyLower m) "timeout" = false →
      classify_error cfg m = m) := by
  refine ⟨?_, ?_, ?_, ?_, ?_⟩ <;> intros <;> simp_all [classify_error]

/-- C4 (witness): a raw "404 resource" error maps to the deployment-not-found
message under the default configuration. -/
theorem C4_classification_witness :
    classify_error defaultConfig "404 resource" =
      "Model deployment \x27gpt-4o-mini\x27 not found. Please verify your deployment name." :=
  (C4_classification defaultConfig "404 resource").2.1 (by decide) (by decide)

/-- C2 (counterexample): `send_message` raises `ValueError` ("Message cannot
be empty") on an empty input message instead of converting the failure into a
returned result. -/
theorem C2_counterexample :
    send_message ⟨⟨false, .error "x", fun _ => .error "x"⟩, fun _ => .error "down"⟩
        defaultConfig "" [] = .raise "Message cannot be empty" := by decide

/-- C2 (amended): for every message whose stripped text is non-empty, every
history and every environment outcome, `send_message` never raises: it always
returns a result dict. -/
theorem C2_no_raise (env : SendEnv) (cfg : Config) (message : String)
    (history : List Message) (h : pyStrip message ≠ "") :
    ∃ d : Dict, send_message env cfg message history = .ok d := by
  unfold send_message
  rw [if_neg h]
  dsimp only
  cases happ : env.apiCall (prepare_messages cfg (enhancedMessage env cfg message) history) with
  | ok resp => exact ⟨successDict resp, rfl⟩
  | error e => exact ⟨failureDict cfg e, rfl⟩

/-- C2 (witness): the amended theorem at the message "hello" and a concrete
failing environment. -/
theorem C2_no_raise_witness :
    ∃ d : Dict,
      send_message ⟨⟨false, .error "x", fun _ => .error "x"⟩, fun _ => .error "down"⟩
        defaultConfig "hello" [] = .ok d :=
  C2_no_raise ⟨⟨false, .error "x", fun _ => .error "x"⟩, fun _ => .error "down"⟩
    defaultConfig "hello" [] (by decide)

/-- C8 (counterexample): when the raw exception text is empty, the returned
failure result has `success = false` but its `error` field is the empty
string, contradicting the claimed non-emptiness. -/
theorem C8_counterexample :
    send_message ⟨⟨false, .error "x", fun _ => .error "x"⟩, fun _ => .error ""⟩
        defaultConfig "hi" [] =
      .ok [("content", .str "I apologize, but I encountered an error: "),
           ("success", .bool false), ("error", .str "")] ∧
    dictGet [("content", DVal.str "I apologize, but I encountered an error: "),
             ("success", DVal.bool false), ("error", DVal.str "")] "error" =
      some (.str "") := by decide

/-- C8 (amended): every failure result of `send_message` carries an `error`
field equal to the classified raw error, a `content` field equal to the
apology string embedding that error text, and the `error` field is non-empty
whenever the raw exception text is non-empty. -/
theorem C8_failure_shape (env : SendEnv) (cfg : Config) (message : String)
    (history : List Message) (d : Dict)
    (hd : send_message env cfg message history = .ok d)
    (hfail : dictGet d "success" = some (.bool false)) :
    ∃ raw,
      env.apiCall (prepare_messages cfg (enhancedMessage env cfg message) history) =
        .error raw ∧
      dictGet d "error" = some (.str (classify_error cfg raw)) ∧
      dictGet d "content" = some (.str (errorApology (classify_error cfg raw))) ∧
      (raw ≠ "" → classify_error cfg raw ≠ "") := by
  unfold send_message at hd
  by_cases hm : pyStrip message = ""
  · rw [if_pos hm] at hd; exact absurd hd (by simp)
  · rw [if_neg hm] at hd
    dsimp only at hd
    cases happ : env.apiCall (prepare_messages cfg (enhancedMessage env cfg message) history) with
    | ok resp =>
      rw [happ] at hd
      simp only [PyResult.ok.injEq] at hd
      rw [← hd] at hfail
      exact absurd hfail (by simp [successDict, dictGet])
    | error raw =>
      rw [happ] at hd
      simp only [PyResult.ok.injEq] at hd
      refine ⟨raw, rfl, ?_, ?_, classify_error_ne_empty cfg raw⟩
      · rw [← hd]; rfl
      · rw [← hd]; rfl

/-- C8 (witness): the amended theorem at a concrete environment whose
completion call fails with the non-empty raw text "boom". -/
theorem C8_failure_shape_witness :
    ∃ raw,
      (⟨⟨false, .error "x", fun _ => .error "x"⟩, fun _ => .error "boom"⟩ : SendEnv).apiCall
          (prepare_messages defaultConfig
            (enhancedMessage
              ⟨⟨false, .error "x", fun _ => .error "x"⟩, fun _ => .error "boom"⟩
              defaultConfig "hi") []) = .error raw ∧
      dictGet [("content", DVal.str "I apologize, but I encountered an error: boom"),
               ("success", DVal.bool false), ("error", DVal.str "boom")] "error" =
        some (.str (classify_error defaultConfig raw)) ∧
      dictGet [("content", DVal.str "I apologize, but I encountered an error: boom"),
               ("success", DVal.bool false), ("error", DVal.str "boom")] "content" =
        some (.str (errorApology (classify_error defaultConfig raw))) ∧
      (raw ≠ "" → classify_error defaultConfig raw ≠ "") :=
  C8_failure_shape ⟨⟨false, .error "x", fun _ => .error "x"⟩, fun _ => .error "boom"⟩
    defaultConfig "hi" []
    [("content", DVal.str "I apologize, but I encountered an error: boom"),
     ("success", DVal.bool false), ("error", DVal.str "boom")]
    (by decide) (by decide)

/-- C10: the result dict of `send_message` has outcome-dependent key sets: on
success exactly the keys content, model, usage (carrying all three token
counters) and success=true, in that order; on failure exactly the keys
content, success=false and error, with no model or usage key. -/
theorem C10_key_sets (env : SendEnv) (cfg : Config) (message : String)
    (history : List Message) (h : pyStrip message ≠ "") :
    (∀ resp, env.apiCall (prepare_messages cfg (enhancedMessage env cfg message) history) =
        .ok resp →
      send_message env cfg message history = .ok (successDict resp) ∧
      (successDict resp).map Prod.fst = ["content", "model", "usage", "success"] ∧
      dictGet (successDict resp) "success" = some (.bool true) ∧
      ∃ p c t, dictGet (successDict resp) "usage" = some (.usage p c t)) ∧
    (∀ raw, env.apiCall (prepare_messages cfg (enhancedMessage env cfg message) history) =
        .error raw →
      send_message env cfg message history = .ok (failureDict cfg raw) ∧
      (failureDict cfg raw).map Prod.fst = ["content", "success", "error"] ∧
      dictGet (failureDict cfg raw) "success" = some (.bool false) ∧
      dictGet (failureDict cfg raw) "model" = none ∧
      dictGet (failureDict cfg raw) "usage" = none) := by
  constructor
  · intro resp happ
    refine ⟨?_, rfl, rfl, ?_⟩
    · unfold send_message
      rw [if_neg h]
      dsimp only
      rw [happ]
    · rcases hu : resp.usage with _ | ⟨p, c, t⟩
      · exact ⟨0, 0, 0, by simp [successDict, dictGet, hu]⟩
      · exact ⟨p, c, t, by simp [successDict, dictGet, hu]⟩
  · intro raw happ
    refine ⟨?_, rfl, rfl, rfl, rfl⟩
    unfold send_message
    rw [if_neg h]
    dsimp only
    rw [happ]

/-- C10 (witness): the theorem applied on both outcome paths at concrete
environments. -/
theorem C10_key_sets_witness :
    send_message ⟨⟨false, .error "x", fun _ => .error "x"⟩,
        fun _ => .ok ⟨some "ok", "m", some (1, 2, 3)⟩⟩ defaultConfig "hi" [] =
      .ok (successDict ⟨some "ok", "m", some (1, 2, 3)⟩) ∧
    send_message ⟨⟨false, .error "x", fun _ => .error "x"⟩, fun _ => .error "404"⟩
        defaultConfig "hi" [] = .ok (failureDict defaultConfig "404") :=
  ⟨((C10_key_sets ⟨⟨false, .error "x", fun _ => .error "x"⟩,
      fun _ => .ok ⟨some "ok", "m", some (1, 2, 3)⟩⟩ defaultConfig "hi" []
      (by decide)).1 ⟨some "ok", "m", some (1, 2, 3)⟩ rfl).1,
   ((C10_key_sets ⟨⟨false, .error "x", fun _ => .error "x"⟩, fun _ => .error "404"⟩
      defaultConfig "hi" [] (by decide)).2 "404" rfl).1⟩

/-! ### Claims about content extraction -/

/-- Is field `f` present with a truthy value in the raw hit `r`? -/
def truthyField (r : SearchResult) (f : String) : Bool :=
  match lookupField r f with
  | some v => v.truthy
  | none => false

theorem probe_none_of_no_truthy (r : SearchResult) :
    ∀ fs : List String, (∀ f ∈ fs, truthyField r f = false) →
      probeContentFields r fs = none := by
  intro fs
  induction fs with
  | nil => intro _; rfl
  | cons f fs ih =>
    intro hall
    have hf := hall f (by simp)
    have hrest := ih fun g hg => hall g (by simp [hg])
    unfold truthyField at hf
    unfold probeContentFields
    cases hl : lookupField r f with
    | none => exact hrest
    | some v =>
      rw [hl] at hf
      change v.truthy = false at hf
      simp [hf, hrest]

/-- The probing loop returns the value of the first listed field that is
present and truthy: if every field strictly before position `i` is not
truthy and the field at position `i` holds the truthy value `v`, the probe
returns `str(v)`. -/
theorem probe_first_truthy (r : SearchResult) :
    ∀ (fs : List String) (i : Nat) (f : String) (v : SVal),
      fs.get? i = some f →
      (∀ g ∈ fs.take i, truthyField r g = false) →
      lookupField r f = some v → v.truthy = true →
      probeContentFields r fs = some v.pyStr := by
  intro fs
  induction fs with
  | nil => intro i f v hget; simp at hget
  | cons a as ih =>
    intro i f v hget hpre hlk htr
    cases i with
    | zero =>
      simp only [List.get?_cons_zero, Option.some.injEq] at hget
      subst hget
      unfold probeContentFields
      rw [hlk]
      simp [htr]
    | succ i =>
      have ha := hpre a (by simp [List.take_succ_cons])
      unfold truthyField at ha
      have htail : ∀ g ∈ as.take i, truthyField r g = false := by
        intro g hg
        exact hpre g (by simp [List.take_succ_cons, hg])
      have hrest := ih i f v (by simpa using hget) htail hlk htr
      unfold probeContentFields
      cases hl : lookupField r a with
      | none => exact hrest
      | some w =>
        rw [hl] at ha
        change w.truthy = false at ha
        simp [ha, hrest]

/-- C9: content extraction probes content, text, body, description, summary
in that order and returns the first present truthy field; with none of them,
a truthy `chunk` field is used (prefixed by the title when a truthy `title`
field exists); with no truthy chunk, the string-valued fields whose keys do
not start with "@" are rendered as "key: value" and joined with " | "; when
that collection is empty the sentinel "No content available" is returned —
and in all cases the extracted content is a non-empty string. -/
theorem C9_extract_content (r : SearchResult) :
    extract_content r ≠ "" ∧
    (∀ (i : Nat) (f : String) (v : SVal),
      content_fields.get? i = some f →
      (∀ g ∈ content_fields.take i, truthyField r g = false) →
      lookupField r f = some v → v.truthy = true →
      extract_content r = v.pyStr) ∧
    ((∀ f ∈ content_fields, truthyField r f = false) →
      ∀ c, lookupField r "chunk" = some c → c.truthy = true →
        truthyField r "title" = false → extract_content r = c.pyStr) ∧
    ((∀ f ∈ content_fields, truthyField r f = false) →
      ∀ c t, lookupField r "chunk" = some c → c.truthy = true →
        lookupField r "title" = some t → t.truthy = true →
        extract_content r = "Title: " ++ t.pyStr ++ " | " ++ c.pyStr) ∧
    ((∀ f ∈ content_fields, truthyField r f = false) → truthyField r "chunk" = false →
      ∀ kv rest, r.filter (fun kv => kv.2.isStr && !(pyStartsWith kv.1 "@")) = kv :: rest →
      extract_content r =
        pyJoin " | " ((kv :: rest).map (fun kv => kv.1 ++ ": " ++ kv.2.pyStr))) ∧
    ((∀ f ∈ content_fields, truthyField r f = false) → truthyField r "chunk" = false →
      r.filter (fun kv => kv.2.isStr && !(pyStartsWith kv.1 "@")) = [] →
      extract_content r = "No content available") := by
  have hchunkFalse : truthyField r "chunk" = false →
      ∀ res, fallbackJoin r = res →
      (match lookupField r "chunk" with
       | some c =>
         if c.truthy then
           pyJoin " | "
             ((match lookupField r "title" with
               | some t => if t.truthy then ["Title: " ++ t.pyStr] else []
               | none => []) ++ [c.pyStr])
         else fallbackJoin r
       | none => fallbackJoin r) = res := by
    intro hch res hres
    unfold truthyField at hch
    cases hl : lookupField r "chunk" with
    | none => exact hres
    | some c =>
      rw [hl] at hch
      change c.truthy = false at hch
      simp [hch, hres]
  refine ⟨extract_content_ne_empty r, ?_, ?_, ?_, ?_, ?_⟩
  · intro i f v hget hpre hlk htr
    have hp := probe_first_truthy r content_fields i f v hget hpre hlk htr
    unfold extract_content
    rw [hp]
  · intro hall c hc htr hti
    unfold truthyField at hti
    cases hl : lookupField r "title" with
    | none =>
      simp [extract_content, probe_none_of_no_truthy r content_fields hall, hc, htr, hl,
        pyJoin]
    | some t =>
      rw [hl] at hti
      change t.truthy = false at hti
      simp [extract_content, probe_none_of_no_truthy r content_fields hall, hc, htr, hl,
        hti, pyJoin]
  · intro hall c t hc htr hl htt
    simp [extract_content, probe_none_of_no_truthy r content_fields hall, hc, htr, hl,
      htt, pyJoin, String.append_assoc]
  · intro hall hch kv rest hfil
    have hfb : fallbackJoin r =
        pyJoin " | " ((kv :: rest).map (fun kv => kv.1 ++ ": " ++ kv.2.pyStr)) := by
      unfold fallbackJoin
      rw [hfil]
      rfl
    unfold extract_content
    rw [probe_none_of_no_truthy r content_fields hall]
    exact hchunkFalse hch _ hfb
  · intro hall hch hfil
    have hfb : fallbackJoin r = "No content available" := by
      unfold fallbackJoin
      rw [hfil]
      rfl
    unfold extract_content
    rw [probe_none_of_no_truthy r content_fields hall]
    exact hchunkFalse hch _ hfb

/-- C9 (witness): the theorem applied at three concrete hits — one where the
second priority field ("text") is the first truthy one (the "content" field
being present but empty), one with only a plain string field (exercising the
"key: value" join), and one with no usable field at all (the sentinel
case). -/
theorem C9_extract_content_witness :
    extract_content [("content", SVal.str ""), ("text", SVal.str "T")] =
      (SVal.str "T").pyStr ∧
    extract_content [("a", SVal.str "x"), ("@search.score", SVal.num 2), ("n", SVal.num 3)] =
      pyJoin " | "
        ((([("a", SVal.str "x")] : List (String × SVal))).map
          (fun kv => kv.1 ++ ": " ++ kv.2.pyStr)) ∧
    extract_content [("@search.score", SVal.num 2)] = "No content available" :=
  ⟨(C9_extract_content [("content", SVal.str ""), ("text", SVal.str "T")]).2.1
     1 "text" (SVal.str "T") rfl (by decide) rfl rfl,
   (C9_extract_content
       [("a", SVal.str "x"), ("@search.score", SVal.num 2), ("n", SVal.num 3)]).2.2.2.2.1
     (by decide) (by decide) ("a", SVal.str "x") [] (by decide),
   (C9_extract_content [("@search.score", SVal.num 2)]).2.2.2.2.2
     (by decide) (by decide) (by decide)⟩

/-! ### Claims about the tiered search pipeline -/

/-- If every search request fails, the tier-selection body ends in a raised
exception (escaping to the outer handler), whatever the configured search
type. -/
theorem searchBody_all_fail (env : SearchEnv) (cfg : Config) (query : String) (k : Int)
    (hall : ∀ p, ∃ e, env.search p = .error e) :
    ∃ e tr, searchBody env cfg query k = (.raise e, tr) := by
  unfold searchBody
  by_cases h1 : cfg.RAG_SEARCH_TYPE = "hybrid"
  · rw [if_pos h1]
    dsimp only
    obtain ⟨e1, he1⟩ := hall (if (get_query_embedding env).isEmpty then semanticParams query k
      else hybridParams query k (get_query_embedding env))
    rw [he1]
    obtain ⟨e2, he2⟩ := hall (semanticParams query k)
    rw [he2]
    obtain ⟨e3, he3⟩ := hall (simpleParams query k)
    rw [he3]
    exact ⟨e3, _, rfl⟩
  · rw [if_neg h1]
    by_cases h2 : cfg.RAG_SEARCH_TYPE = "semantic"
    · rw [if_pos h2]
      dsimp only
      obtain ⟨e1, he1⟩ := hall (semanticParams query k)
      rw [he1]
      obtain ⟨e2, he2⟩ := hall (simpleParams query k)
      rw [he2]
      exact ⟨e2, _, rfl⟩
    · rw [if_neg h2]
      dsimp only
      obtain ⟨e1, he1⟩ := hall (simpleParams query k)
      rw [he1]
      exact ⟨e1, _, rfl⟩

/-- C6: `search_documents` never raises: the traced run always ends in a
returned document list; when no search client is available the result is the
empty list, and when every search request fails the result is the empty list
rather than a propagated exception. -/
theorem C6_never_raises (env : SearchEnv) (cfg : Config) (query : String)
    (top_k : Option Int) :
    (∃ docs, (search_documents_traced env cfg query top_k).1 = .ok docs) ∧
    (env.clientAvailable = false → search_documents env cfg query top_k = []) ∧
    ((∀ p, ∃ e, env.search p = .error e) → search_documents env cfg query top_k = []) := by
  refine ⟨?_, ?_, ?_⟩
  · unfold search_documents_traced
    cases hca : env.clientAvailable with
    | false => exact ⟨[], rfl⟩
    | true =>
      simp only [hca, Bool.not_true, Bool.false_eq_true, if_false]
      rcases hsb : searchBody env cfg query (pyOrInt top_k cfg.RAG_TOP_K) with ⟨res, tr⟩
      cases res with
      | ok rs => exact ⟨rs.map mkDoc, rfl⟩
      | raise e => exact ⟨[], rfl⟩
  · intro hca
    simp [search_documents, search_documents_traced, hca, PyResult.unwrapOr]
  · intro hall
    unfold search_documents search_documents_traced
    cases hca : env.clientAvailable with
    | false => rfl
    | true =>
      simp only [hca, Bool.not_true, Bool.false_eq_true, if_false]
      obtain ⟨e, tr, htr⟩ := searchBody_all_fail env cfg query (pyOrInt top_k cfg.RAG_TOP_K) hall
      rw [htr]
      rfl

/-- C6 (witness): the empty-result conclusions at a concrete unavailable
client and at a concrete always-failing search backend. -/
theorem C6_never_raises_witness :
    search_documents ⟨false, .error "x", fun _ => .error "x"⟩ defaultConfig "q" none = [] ∧
    search_documents ⟨true, .ok [1], fun _ => .error "down"⟩ defaultConfig "q" none = [] :=
  ⟨(C6_never_raises ⟨false, .error "x", fun _ => .error "x"⟩ defaultConfig "q" none).2.1 rfl,
   (C6_never_raises ⟨true, .ok [1], fun _ => .error "down"⟩ defaultConfig "q" none).2.2
     (fun _ => ⟨"down", rfl⟩)⟩

/-- Under the hybrid configuration with a successfully generated non-empty
embedding, the tier-selection body is exactly the three-tier cascade
hybrid, then semantic, then simple. -/
theorem searchBody_hybrid (env : SearchEnv) (cfg : Config) (query : String) (k : Int)
    (hcfg : cfg.RAG_SEARCH_TYPE = "hybrid") (emb : List Int)
    (hemb : env.embed = .ok emb) (hne : emb ≠ []) :
    searchBody env cfg query k =
      match env.search (hybridParams query k emb) with
      | .ok rs => (.ok rs, [hybridParams query k emb])
      | .error _ =>
        match env.search (semanticParams query k) with
        | .ok rs => (.ok rs, [hybridParams query k emb, semanticParams query k])
        | .error _ =>
          match env.search (simpleParams query k) with
          | .ok rs =>
            (.ok rs,
             [hybridParams query k emb, semanticParams query k, simpleParams query k])
          | .error e =>
            (.raise e,
             [hybridParams query k emb, semanticParams query k, simpleParams query k]) := by
  unfold searchBody
  rw [if_pos hcfg]
  have he : get_query_embedding env = emb := by unfold get_query_embedding; rw [hemb]
  have hie : emb.isEmpty = false := by
    cases emb with
    | nil => exact absurd rfl hne
    | cons a as => rfl
  dsimp only
  rw [he, hie]
  simp only [Bool.false_eq_true, if_false]

/-- C5 (counterexample): with search type hybrid and every tier succeeding
but returning no hits, `search_documents` returns the empty list even though
the first (hybrid-with-vector) tier did NOT fail — refuting "the result is
empty only when all tiers fail". -/
theorem C5_counterexample :
    search_documents ⟨true, .ok [1], fun _ => .ok []⟩ defaultConfig "q" none = [] ∧
    (⟨true, .ok [1], fun _ => .ok []⟩ : SearchEnv).search (hybridParams "q" 5 [1]) =
      .ok [] :=
  ⟨rfl, rfl⟩

/-- C5 (amended): when the configured search type is hybrid, the client is
available and a non-empty query embedding was produced, `search_documents`
degrades deterministically through the tiers hybrid-with-vector, then
semantic-only, then plain full-text as each successive request fails; the
three requests are pairwise distinct and each is issued at most once (the
trace lists each exactly once, in tier order), and when all three fail the
result is the empty list.  (The result may also be empty when a tier
succeeds with zero hits.) -/
theorem C5_tier_cascade (env : SearchEnv) (cfg : Config) (query : String) (emb : List Int)
    (hcfg : cfg.RAG_SEARCH_TYPE = "hybrid") (hca : env.clientAvailable = true)
    (hemb : env.embed = .ok emb) (hne : emb ≠ []) :
    (∀ rs, env.search (hybridParams query cfg.RAG_TOP_K emb) = .ok rs →
      search_documents_traced env cfg query none =
        (.ok (rs.map mkDoc), [hybridParams query cfg.RAG_TOP_K emb])) ∧
    (∀ e1 rs, env.search (hybridParams query cfg.RAG_TOP_K emb) = .error e1 →
      env.search (semanticParams query cfg.RAG_TOP_K) = .ok rs →
      search_documents_traced env cfg query none =
        (.ok (rs.map mkDoc),
         [hybridParams query cfg.RAG_TOP_K emb, semanticParams query cfg.RAG_TOP_K])) ∧
    (∀ e1 e2 rs, env.search (hybridParams query cfg.RAG_TOP_K emb) = .error e1 →
      env.search (semanticParams query cfg.RAG_TOP_K) = .error e2 →
      env.search (simpleParams query cfg.RAG_TOP_K) = .ok rs →
      search_documents_traced env cfg query none =
        (.ok (rs.map mkDoc),
         [hybridParams query cfg.RAG_TOP_K emb, semanticParams query cfg.RAG_TOP_K,
          simpleParams query cfg.RAG_TOP_K])) ∧
    (∀ e1 e2 e3, env.search (hybridParams query cfg.RAG_TOP_K emb) = .error e1 →
      env.search (semanticParams query cfg.RAG_TOP_K) = .error e2 →
      env.search (simpleParams query cfg.RAG_TOP_K) = .error e3 →
      search_documents_traced env cfg query none =
        (.ok [],
         [hybridParams query cfg.RAG_TOP_K emb, semanticParams query cfg.RAG_TOP_K,
          simpleParams query cfg.RAG_TOP_K])) ∧
    [hybridParams query cfg.RAG_TOP_K emb, semanticParams query cfg.RAG_TOP_K,
     simpleParams query cfg.RAG_TOP_K].Nodup := by
  have hb := searchBody_hybrid env cfg query cfg.RAG_TOP_K hcfg emb hemb hne
  have hred : ∀ res : PyResult (List SearchResult) × List SearchParams,
      searchBody env cfg query (pyOrInt none cfg.RAG_TOP_K) = res →
      search_documents_traced env cfg query none =
        (match res with
         | (.ok rs, tr) => (.ok (rs.map mkDoc), tr)
         | (.raise _, tr) => (.ok [], tr)) := by
    intro res hres
    unfold search_documents_traced
    simp only [hca, Bool.not_true, Bool.false_eq_true, if_false]
    rw [hres]
  refine ⟨?_, ?_, ?_, ?_, ?_⟩
  · intro rs hH
    exact hred (.ok rs, [hybridParams query cfg.RAG_TOP_K emb])
      (by simp only [pyOrInt]; rw [hb, hH])
  · intro e1 rs hH hS
    exact hred (.ok rs,
        [hybridParams query cfg.RAG_TOP_K emb, semanticParams query cfg.RAG_TOP_K])
      (by simp only [pyOrInt]; rw [hb, hH, hS])
  · intro e1 e2 rs hH hS hP
    exact hred (.ok rs,
        [hybridParams query cfg.RAG_TOP_K emb, semanticParams query cfg.RAG_TOP_K,
         simpleParams query cfg.RAG_TOP_K])
      (by simp only [pyOrInt]; rw [hb, hH, hS, hP])
  · intro e1 e2 e3 hH hS hP
    exact hred (.raise e3,
        [hybridParams query cfg.RAG_TOP_K emb, semanticParams query cfg.RAG_TOP_K,
         simpleParams query cfg.RAG_TOP_K])
      (by simp only [pyOrInt]; rw [hb, hH, hS, hP])
  · have h12 : hybridParams query cfg.RAG_TOP_K emb ≠ semanticParams query cfg.RAG_TOP_K := by
      intro h
      have := congrArg SearchParams.vector_queries h
      simp [hybridParams, semanticParams] at this
    have h13 : hybridParams query cfg.RAG_TOP_K emb ≠ simpleParams query cfg.RAG_TOP_K := by
      intro h
      have := congrArg SearchParams.vector_queries h
      simp [hybridParams, simpleParams] at this
    have h23 : semanticParams query cfg.RAG_TOP_K ≠ simpleParams query cfg.RAG_TOP_K := by
      intro h
      have := congrArg SearchParams.query_type h
      simp [semanticParams, simpleParams] at this
    simp [List.nodup_cons, h12, h13, h23]

/-- C5 (witness): the all-tiers-fail scenario at a concrete environment:
the trace shows each of the three tiers attempted exactly once, and the
result is empty. -/
theorem C5_tier_cascade_witness :
    search_documents_traced ⟨true, .ok [1], fun _ => .error "down"⟩ defaultConfig "q" none =
      (.ok [], [hybridParams "q" 5 [1], semanticParams "q" 5, simpleParams "q" 5]) :=
  (C5_tier_cascade ⟨true, .ok [1], fun _ => .error "down"⟩ defaultConfig "q" [1]
      rfl rfl rfl (by decide)).2.2.2.1 "down" "down" "down" rfl rfl rfl

end AIChat
